import Mathlib

/-!
Shallow embedding of the layout-specialized refcount-procedure generator
(`src/compiler/mono/src/gen_refcount.rs`) of the repository, together with
proofs of the spec's testable properties.

Data types that `gen_refcount.rs` consumes from other crates of the same
repository (`crate::ir`, `crate::layout`, `roc_module`) are not under `src/`;
they are modelled from the spec's data-model section and from the way
`gen_refcount.rs` uses them, and are marked `Modelled from the spec:` below.
-/

namespace GenRefcount

/-- Modelled from the spec: integer widths of the primitive scalar layouts
(`roc_builtins::bitcode::IntWidth`). -/
inductive IntWidth where
  | u8 | u16 | u32 | u64 | u128
  | i8 | i16 | i32 | i64 | i128
  deriving DecidableEq, Repr

/-- Modelled from the spec: `IntWidth::stack_size`, the width in bytes;
used by the generator as the pointer size / word-size alignment constant. -/
def IntWidth.stackSize : IntWidth → Nat
  | .u8 | .i8 => 1
  | .u16 | .i16 => 2
  | .u32 | .i32 => 4
  | .u64 | .i64 => 8
  | .u128 | .i128 => 16

/-- Modelled from the spec: float widths of the primitive scalar layouts. -/
inductive FloatWidth where
  | f32 | f64 | f128
  deriving DecidableEq, Repr

mutual
/-- Modelled from the spec: `crate::layout::Builtin` — the builtin layouts, as
pattern-matched by `gen_refcount.rs` (`Int`, `Bool`, `Str`, `List`, `Set`,
`Dict`) plus the other primitive scalars. -/
inductive Builtin where
  | int (w : IntWidth)
  | float (w : FloatWidth)
  | bool
  | decimal
  | str
  | list (elem : Layout)
  | set (elem : Layout)
  | dict (key : Layout) (value : Layout)

/-- Modelled from the spec: `crate::layout::Layout` — a closed set of variants
describing a value's physical representation, compared structurally; the
variants are exactly those `gen_refcount.rs` pattern-matches. -/
inductive Layout where
  | builtin (b : Builtin)
  | struct (fields : LayoutSeq)
  | union (tags : LayoutSeqSeq)
  | lambdaSet (captures : LayoutSeq)
  | recursivePointer

/-- Modelled from the spec: a flat sequence of field layouts (a struct's
field list). -/
inductive LayoutSeq where
  | nil
  | cons (hd : Layout) (tl : LayoutSeq)

/-- Modelled from the spec: a sequence of field-layout sequences (a tagged
union's per-tag payloads). -/
inductive LayoutSeqSeq where
  | nil
  | cons (hd : LayoutSeq) (tl : LayoutSeqSeq)
end

deriving instance DecidableEq for Builtin, Layout, LayoutSeq, LayoutSeqSeq

/-- `const LAYOUT_BOOL: Layout = Layout::Builtin(Builtin::Bool)`. -/
def LAYOUT_BOOL : Layout := .builtin .bool

/-- `const LAYOUT_UNIT: Layout = Layout::Struct(&[])`. -/
def LAYOUT_UNIT : Layout := .struct .nil

/-- `const LAYOUT_PTR: Layout = Layout::RecursivePointer`. -/
def LAYOUT_PTR : Layout := .recursivePointer

/-- `const LAYOUT_U32: Layout = Layout::Builtin(Builtin::Int(IntWidth::U32))`. -/
def LAYOUT_U32 : Layout := .builtin (.int .u32)

/-- `pub enum RefcountOp { Inc, Dec, DecRef }`. -/
inductive RefcountOp where
  | inc
  | dec
  | decRef
  deriving DecidableEq, Repr

/-- Debug-format name of a `RefcountOp`, as produced by `format!("{:?}", op)`. -/
def RefcountOp.debugName : RefcountOp → String
  | .inc => "Inc"
  | .dec => "Dec"
  | .decRef => "DecRef"

/-- Modelled from the spec: `roc_module::symbol::Symbol` — a unique identifier,
a pair of a module id and an ident index.  `Symbol::ARG_1` / `ARG_2` live in a
reserved builtin module, kept apart from the per-unit `home` module here;
`Symbol::new(home, ident_id)` and `Interns::from_index(home, index)` both
construct a symbol of the `home` module from a numeric index. -/
inductive Symbol where
  | builtinArg (n : Nat)
  | mk (home : Nat) (index : Nat)
  deriving DecidableEq, Repr

/-- `Symbol::ARG_1`, the generated procedures' value parameter. -/
def Symbol.ARG_1 : Symbol := .builtinArg 1

/-- `Symbol::ARG_2`, the generated Inc procedures' amount parameter. -/
def Symbol.ARG_2 : Symbol := .builtinArg 2

/-- Modelled from the spec: `roc_module::symbol::IdentIds` — the compilation
unit's interned ident names; `add` appends a name and returns its index. -/
abbrev IdentIds := List String

/-- Modelled from the spec: the low-level primitives `gen_refcount.rs` calls
by name (`roc_module::low_level::LowLevel`): locate-count-pointer
(`RefCountGetPtr`), increment-count (`RefCountInc`), decrement-count
(`RefCountDec`), and the `>=` comparison (`NumGte`). -/
inductive LowLevel where
  | RefCountGetPtr
  | RefCountInc
  | RefCountDec
  | NumGte
  deriving DecidableEq, Repr

/-- Modelled from the spec: `crate::ir::Literal`, restricted to the integer
literals this generator emits. -/
inductive Literal where
  | int (n : Int)
  deriving DecidableEq, Repr

/-- Modelled from the spec: `crate::ir::CallType`, restricted to the variants
this generator emits.  The opaque backend-dummy specialization / update-mode
ids carried by the source are omitted. -/
inductive CallType where
  | byName (name : Symbol) (retLayout : Layout) (argLayouts : List Layout)
  | lowLevel (op : LowLevel)

/-- Modelled from the spec: `crate::ir::Call`. -/
structure Call where
  callType : CallType
  arguments : List Symbol

/-- Modelled from the spec: `crate::ir::Expr`, restricted to the variants this
generator emits.  `structSym` is the field the source calls `structure`. -/
inductive Expr where
  | literal (lit : Literal)
  | call (c : Call)
  | structAtIndex (index : Nat) (fieldLayouts : List Layout) (structSym : Symbol)
  | struct (fields : List Symbol)

/-- Modelled from the spec: `crate::ir::BranchInfo`; only `None` is used. -/
inductive BranchInfo where
  | none

/-- Modelled from the spec: `crate::ir::Stmt`, restricted to the constructors
this generator emits (`Let`, `Ret`, `Switch`); the statements that follow a
refcount instruction are passed in as an arbitrary `Stmt`. -/
inductive Stmt where
  | letS (sym : Symbol) (expr : Expr) (layout : Layout) (next : Stmt)
  | ret (sym : Symbol)
  | switch (condSymbol : Symbol) (condLayout : Layout)
      (branches : List (Nat × BranchInfo × Stmt))
      (defaultBranch : BranchInfo × Stmt) (retLayout : Layout)

/-- Modelled from the spec: `crate::ir::ProcLayout` — the (parameter layouts,
return layout) info handed to the code generator on first registration. -/
structure ProcLayout where
  arguments : List Layout
  result : Layout

/-- Modelled from the spec: `crate::ir::SelfRecursive`; only
`NotSelfRecursive` is used. -/
inductive SelfRecursive where
  | notSelfRecursive

/-- Modelled from the spec: `crate::ir::HostExposedLayouts`; only
`NotHostExposed` is used. -/
inductive HostExposedLayouts where
  | notHostExposed

/-- Modelled from the spec: `crate::ir::Proc` — a generated procedure. -/
structure Proc where
  name : Symbol
  args : List (Layout × Symbol)
  body : Stmt
  closureDataLayout : Option Layout
  retLayout : Layout
  isSelfRecursive : SelfRecursive
  mustOwnArguments : Bool
  hostExposedLayouts : HostExposedLayouts

/-- Modelled from the spec: `crate::ir::ModifyRc` — the abstract refcount
instruction: Increment-by-N, Decrement-by-1, DecrementWithoutRelease. -/
inductive ModifyRc where
  | inc (structSym : Symbol) (amount : Nat)
  | dec (structSym : Symbol)
  | decRef (structSym : Symbol)

/-- `pub struct RefcountProcGenerator` — the generator state: the `home`
module, the fresh-symbol counter, the pointer size, the isize layout, and the
insertion-ordered specialization registry `procs_to_generate`.  The arena is
an allocation detail and is not modelled. -/
structure RefcountProcGenerator where
  home : Nat
  nextSymbolId : Nat
  ptrSize : Nat
  layoutIsize : Layout
  procsToGenerate : List (Layout × RefcountOp × Symbol)

/-- `RefcountProcGenerator::new`. -/
def RefcountProcGenerator.new (intwidthIsize : IntWidth) (home : Nat) :
    RefcountProcGenerator :=
  { home := home
    nextSymbolId := 0
    ptrSize := intwidthIsize.stackSize
    layoutIsize := .builtin (.int intwidthIsize)
    procsToGenerate := [] }

/-- `fn unique_symbol` — `Interns::from_index(home, next_symbol_id)` after
bumping the counter. -/
def uniqueSymbol (g : RefcountProcGenerator) : Symbol × RefcountProcGenerator :=
  (Symbol.mk g.home g.nextSymbolId, { g with nextSymbolId := g.nextSymbolId + 1 })

/-- `fn create_symbol` — `Symbol::new(home, ident_ids.add(name))`. -/
def createSymbol (g : RefcountProcGenerator) (identIds : IdentIds) (name : String) :
    Symbol × IdentIds :=
  (Symbol.mk g.home identIds.length, identIds ++ [name])

/-- `fn layout_debug_name` — the layout classifier used for debug naming;
`none` models the `unreachable!` panic on a non-refcounted builtin. -/
def layoutDebugName : Layout → Option String
  | .builtin (.list _) => some "list"
  | .builtin (.set _) => some "set"
  | .builtin (.dict _ _) => some "dict"
  | .builtin .str => some "str"
  | .builtin _ => none
  | .struct _ => some "struct"
  | .union _ => some "union"
  | .lambdaSet _ => some "lambdaset"
  | .recursivePointer => some "recursive_pointer"

/-- `fn get_proc_symbol` — the registry lookup: find the entry for
`(layout, op)` or append a fresh one; returns `(already_existed, symbol)`
plus the updated state.  `none` models the panic path inside
`layout_debug_name`. -/
def getProcSymbol (g : RefcountProcGenerator) (identIds : IdentIds)
    (layout : Layout) (op : RefcountOp) :
    Option (Bool × Symbol × RefcountProcGenerator × IdentIds) :=
  match g.procsToGenerate.find? (fun e => decide (e.1 = layout ∧ e.2.1 = op)) with
  | some e => some (true, e.2.2, g, identIds)
  | none =>
    match layoutDebugName layout with
    | none => none
    | some layoutName =>
      let uniqueIdx := g.procsToGenerate.length
      let debugName :=
        "#rc" ++ op.debugName ++ "_" ++ layoutName ++ "_" ++ toString uniqueIdx
      let (newSymbol, identIds') := createSymbol g identIds debugName
      some (false, newSymbol,
        { g with procsToGenerate := g.procsToGenerate ++ [(layout, op, newSymbol)] },
        identIds')

/-- `fn expand_refcount_stmt` — expands one abstract refcount instruction into
concrete IR plus, on first registration, the `(name, ProcLayout)` info for the
code generator.  `none` models the panic path of `get_proc_symbol`.  Note the
source quirks kept verbatim: the Inc amount binding is given `LAYOUT_UNIT`;
in the Dec branch `arg_layouts = [layout, layout_isize]` is used for the
registered `ProcLayout` while the call itself uses `[layout]`. -/
def expandRefcountStmt (g : RefcountProcGenerator) (identIds : IdentIds)
    (layout : Layout) (modify : ModifyRc) (following : Stmt) :
    Option (Stmt × Option (Symbol × ProcLayout) × RefcountProcGenerator × IdentIds) :=
  match modify with
  | .inc structSym amount =>
    match getProcSymbol g identIds layout .inc with
    | none => none
    | some (isExisting, procName, g₁, identIds₁) =>
      let (amountSym, identIds₂) := createSymbol g₁ identIds₁ "amount"
      let amountExpr := Expr.literal (Literal.int amount)
      let argLayouts := [layout, g₁.layoutIsize]
      let (callResultDummy, g₂) := uniqueSymbol g₁
      let callExpr := Expr.call
        { callType := CallType.byName procName LAYOUT_UNIT argLayouts
          arguments := [structSym, amountSym] }
      let callStmt := Stmt.letS callResultDummy callExpr LAYOUT_UNIT following
      let rcStmt := Stmt.letS amountSym amountExpr LAYOUT_UNIT callStmt
      let newProcInfo : Option (Symbol × ProcLayout) :=
        if isExisting then none
        else some (procName, { arguments := argLayouts, result := LAYOUT_UNIT })
      some (rcStmt, newProcInfo, g₂, identIds₂)
  | .dec structSym =>
    match getProcSymbol g identIds layout .dec with
    | none => none
    | some (isExisting, procName, g₁, identIds₁) =>
      let argLayouts := [layout, g₁.layoutIsize]
      let (callResultDummy, g₂) := uniqueSymbol g₁
      let callExpr := Expr.call
        { callType := CallType.byName procName LAYOUT_UNIT [layout]
          arguments := [structSym] }
      let rcStmt := Stmt.letS callResultDummy callExpr LAYOUT_UNIT following
      let newProcInfo : Option (Symbol × ProcLayout) :=
        if isExisting then none
        else some (procName, { arguments := argLayouts, result := LAYOUT_UNIT })
      some (rcStmt, newProcInfo, g₂, identIds₁)
  | .decRef structSym =>
    let (rcPtrSym, g₁) := uniqueSymbol g
    let rcPtrExpr := Expr.call
      { callType := CallType.lowLevel .RefCountGetPtr, arguments := [structSym] }
    let (callResultDummy, g₂) := uniqueSymbol g₁
    let callExpr := Expr.call
      { callType := CallType.lowLevel .RefCountDec, arguments := [rcPtrSym] }
    let callStmt := Stmt.letS callResultDummy callExpr LAYOUT_UNIT following
    let rcStmt := Stmt.letS rcPtrSym rcPtrExpr LAYOUT_PTR callStmt
    some (rcStmt, Option.none, g₂, identIds)

/-- `fn return_unit` — bind the empty struct and return it. -/
def returnUnit (g : RefcountProcGenerator) : Stmt × RefcountProcGenerator :=
  let (unit, g₁) := uniqueSymbol g
  (Stmt.letS unit (Expr.struct []) LAYOUT_UNIT (Stmt.ret unit), g₁)

/-- `fn gen_args` — a generated helper's parameter list: the value always,
plus the amount (as `ARG_2`, isize layout) for Inc only. -/
def genArgs (g : RefcountProcGenerator) (op : RefcountOp) (layout : Layout) :
    List (Layout × Symbol) :=
  let rocValue := (layout, Symbol.ARG_1)
  match op with
  | .inc => [rocValue, (g.layoutIsize, Symbol.ARG_2)]
  | .dec | .decRef => [rocValue]

/-- `fn gen_modify_str` — the generated Str helper: read the length (second
word) as signed isize, compare with zero (`NumGte`), and branch: big strings
locate the count pointer and call `RefCountInc`/`RefCountDec`; small strings
return unit untouched. -/
def genModifyStr (g : RefcountProcGenerator) (op : RefcountOp) (procName : Symbol) :
    Proc × RefcountProcGenerator :=
  let string := Symbol.ARG_1
  let layoutIsize := g.layoutIsize
  let (len, g₁) := uniqueSymbol g
  let lenExpr := Expr.structAtIndex 1 [LAYOUT_PTR, layoutIsize] string
  let (zero, g₂) := uniqueSymbol g₁
  let zeroExpr := Expr.literal (Literal.int 0)
  let (isBigStr, g₃) := uniqueSymbol g₂
  let isBigStrExpr := Expr.call
    { callType := CallType.lowLevel .NumGte, arguments := [len, zero] }
  let (elements, g₄) := uniqueSymbol g₃
  let elementsExpr := Expr.structAtIndex 0 [LAYOUT_PTR, layoutIsize] string
  let (rcPtr, g₅) := uniqueSymbol g₄
  let rcPtrExpr := Expr.call
    { callType := CallType.lowLevel .RefCountGetPtr, arguments := [string] }
  let (alignment, g₆) := uniqueSymbol g₅
  let alignmentExpr := Expr.literal (Literal.int g.ptrSize)
  let (zigCallResult, g₇) := uniqueSymbol g₆
  let zigCallExpr :=
    match op with
    | .inc => Expr.call
        { callType := CallType.lowLevel .RefCountInc
          arguments := [rcPtr, Symbol.ARG_2] }
    | .dec | .decRef => Expr.call
        { callType := CallType.lowLevel .RefCountDec
          arguments := [rcPtr, alignment] }
  let thenBranch :=
    Stmt.letS elements elementsExpr LAYOUT_PTR
      (Stmt.letS rcPtr rcPtrExpr LAYOUT_PTR
        (Stmt.letS alignment alignmentExpr LAYOUT_U32
          (Stmt.letS zigCallResult zigCallExpr LAYOUT_UNIT
            (Stmt.ret zigCallResult))))
  let (retUnit, g₈) := returnUnit g₇
  let ifStmt := Stmt.switch isBigStr LAYOUT_BOOL
    [(1, BranchInfo.none, thenBranch)] (BranchInfo.none, retUnit) LAYOUT_UNIT
  let body :=
    Stmt.letS len lenExpr layoutIsize
      (Stmt.letS zero zeroExpr layoutIsize
        (Stmt.letS isBigStr isBigStrExpr LAYOUT_BOOL ifStmt))
  let args := genArgs g₈ op (.builtin .str)
  ({ name := procName
     args := args
     body := body
     closureDataLayout := Option.none
     retLayout := LAYOUT_UNIT
     isSelfRecursive := .notSelfRecursive
     mustOwnArguments := false
     hostExposedLayouts := .notHostExposed }, g₈)

/-- Loop body of `generate_refcount_procs`: synthesize one proc per drained
registry entry, in order; `none` models the `todo!` panic on any layout other
than Str. -/
def genProcsLoop (g : RefcountProcGenerator) :
    List (Layout × RefcountOp × Symbol) →
    Option (List Proc × RefcountProcGenerator)
  | [] => some ([], g)
  | (layout, op, symbol) :: rest =>
    match layout with
    | .builtin .str =>
      match genProcsLoop (genModifyStr g op symbol).2 rest with
      | Option.none => Option.none
      | some (procs, g₂) => some ((genModifyStr g op symbol).1 :: procs, g₂)
    | _ => Option.none

/-- `fn generate_refcount_procs` — swap the registry out (leaving it empty)
and synthesize one helper proc per entry, in insertion order. -/
def generateRefcountProcs (g : RefcountProcGenerator) :
    Option (List Proc × RefcountProcGenerator) :=
  let procsToGenerate := g.procsToGenerate
  genProcsLoop { g with procsToGenerate := [] } procsToGenerate

/-! Evaluation of generated helper bodies.

Modelled from the spec: a small-step-free big-step evaluator for the IR
fragment the generator emits, recording every low-level primitive call in
order.  The low-level primitives are external (implemented in the runtime);
they are observable here only through the recorded trace: the
locate-count-pointer primitive returns an abstract count pointer tagged with
the structure it was derived from, and the count-adjustment primitives return
the unit value. -/

/-- Runtime values of the evaluator: integers, booleans, flat structs, and
the abstract count pointer returned by `RefCountGetPtr`. -/
inductive Value where
  | int (n : Int)
  | bool (b : Bool)
  | struct (fields : List Value)
  | countPtr (of : Value)

/-- Environment lookup, most recent binding first. -/
def lookupEnv : List (Symbol × Value) → Symbol → Option Value
  | [], _ => Option.none
  | (s, v) :: rest, t => if s = t then some v else lookupEnv rest t

/-- One recorded low-level primitive call: the op and its argument values. -/
abbrev CallTrace := List (LowLevel × List Value)

/-- Semantics of the low-level primitives: `NumGte` is the signed `>=`;
`RefCountGetPtr` yields the abstract count pointer of its argument; the
count-adjustment primitives return unit (their effect is only the trace). -/
def evalLowLevel : LowLevel → List Value → Option Value
  | .NumGte, [.int a, .int b] => some (.bool (decide (b ≤ a)))
  | .RefCountGetPtr, [v] => some (.countPtr v)
  | .RefCountInc, _ => some (.struct [])
  | .RefCountDec, _ => some (.struct [])
  | _, _ => Option.none

/-- Evaluate one expression; returns its value and the low-level calls made.
Direct `CallType::ByName` calls are not interpreted (generated helper bodies
contain none). -/
def evalExpr (env : List (Symbol × Value)) : Expr → Option (Value × CallTrace)
  | .literal (.int n) => some (.int n, [])
  | .struct syms =>
    match syms.mapM (lookupEnv env) with
    | some vals => some (.struct vals, [])
    | Option.none => Option.none
  | .structAtIndex idx _ s =>
    match lookupEnv env s with
    | some (.struct fields) =>
      match fields.get? idx with
      | some v => some (v, [])
      | Option.none => Option.none
    | _ => Option.none
  | .call c =>
    match c.callType with
    | .lowLevel op =>
      match c.arguments.mapM (lookupEnv env) with
      | some args =>
        match evalLowLevel op args with
        | some v => some (v, [(op, args)])
        | Option.none => Option.none
      | Option.none => Option.none
    | .byName _ _ _ => Option.none

/-- Numeric tag a switch scrutinee takes: booleans are 1/0, ints their
value. -/
def valueTag : Value → Nat
  | .bool true => 1
  | .bool false => 0
  | .int n => n.toNat
  | _ => 0

mutual
/-- Evaluate a statement under an environment, collecting the trace of
low-level calls in execution order. -/
def evalStmt (env : List (Symbol × Value)) : Stmt → Option (Value × CallTrace)
  | .letS s e _ next =>
    match evalExpr env e with
    | Option.none => Option.none
    | some (v, tr₁) =>
      match evalStmt ((s, v) :: env) next with
      | Option.none => Option.none
      | some (v', tr₂) => some (v', tr₁ ++ tr₂)
  | .ret s =>
    match lookupEnv env s with
    | some v => some (v, [])
    | Option.none => Option.none
  | .switch cond _ branches (_, dfltStmt) _ =>
    match lookupEnv env cond with
    | some v => evalBranches env (valueTag v) branches dfltStmt
    | Option.none => Option.none
termination_by s => sizeOf s

/-- Pick the branch whose tag matches, else the default. -/
def evalBranches (env : List (Symbol × Value)) (tag : Nat) :
    List (Nat × BranchInfo × Stmt) → Stmt → Option (Value × CallTrace)
  | [], dflt => evalStmt env dflt
  | (t, _, s) :: rest, dflt =>
    if t = tag then evalStmt env s else evalBranches env tag rest dflt
termination_by bs dflt => sizeOf bs + sizeOf dflt
end

/-- Classifier for the claims: the count-adjustment primitives are
increment-count and decrement-count; locating the count pointer and the
comparison are not adjustments. -/
def isCountAdjust : LowLevel → Bool
  | .RefCountInc => true
  | .RefCountDec => true
  | _ => false

/-! Request sequences against the registry. -/

/-- Iterate `get_proc_symbol` `n` times against the same `(layout, op)` pair,
collecting the `(already_existed, symbol)` results in order. -/
def getProcSymbolN (g : RefcountProcGenerator) (identIds : IdentIds)
    (layout : Layout) (op : RefcountOp) :
    Nat → Option (List (Bool × Symbol) × RefcountProcGenerator × IdentIds)
  | 0 => some ([], g, identIds)
  | n + 1 =>
    match getProcSymbol g identIds layout op with
    | Option.none => Option.none
    | some (b, s, g', identIds') =>
      match getProcSymbolN g' identIds' layout op n with
      | Option.none => Option.none
      | some (results, g'', identIds'') => some ((b, s) :: results, g'', identIds'')

/-- Run a sequence of registry requests (`get_proc_symbol` per pair) in
order, threading the generator state. -/
def processRequests (g : RefcountProcGenerator) (identIds : IdentIds) :
    List (Layout × RefcountOp) → Option (RefcountProcGenerator × IdentIds)
  | [] => some (g, identIds)
  | (layout, op) :: rest =>
    match getProcSymbol g identIds layout op with
    | Option.none => Option.none
    | some (_, _, g', identIds') => processRequests g' identIds' rest

/-- Stated from the spec's words, for comparison with the code: the order in
which distinct `(layout, op)` pairs were first requested — each pair listed
once, at the position of its first occurrence. -/
def firstRequestOrder (reqs : List (Layout × RefcountOp)) :
    List (Layout × RefcountOp) :=
  reqs.foldl (fun acc r => if r ∈ acc then acc else acc ++ [r]) []

/-! Concrete inputs used by witnesses and counterexamples. -/

/-- A fresh generator for a 64-bit target, home module 7. -/
def exGen : RefcountProcGenerator := RefcountProcGenerator.new .i64 7

/-- The string layout. -/
def exStr : Layout := .builtin .str

/-- A concrete value symbol (some user symbol from another module). -/
def exValue : Symbol := Symbol.mk 9 0

/-- A concrete following statement. -/
def exFollowing : Stmt := Stmt.ret Symbol.ARG_1

/-- A fresh generator for a 64-bit target, home module 5. -/
def c4Gen : RefcountProcGenerator := RefcountProcGenerator.new .i64 5

/-- A generator whose registry holds one entry for a non-string layout. -/
def c8Gen : RefcountProcGenerator :=
  { exGen with procsToGenerate := [(.builtin .bool, .dec, Symbol.mk 7 0)] }

/-- A generator whose registry holds one string entry, for the drain-twice
experiment. -/
def cexGen : RefcountProcGenerator :=
  { home := 3, nextSymbolId := 0, ptrSize := 8
    layoutIsize := .builtin (.int .i64)
    procsToGenerate := [(.builtin .str, .dec, Symbol.mk 3 99)] }

/-- The result of the first drain of `cexGen`. -/
def cexDrained : List Proc × RefcountProcGenerator :=
  (generateRefcountProcs cexGen).getD ([], cexGen)

/-- The result of a concrete Increment expansion (amount 3, Str layout). -/
def c7Expansion : Stmt × Option (Symbol × ProcLayout) × RefcountProcGenerator × IdentIds :=
  (expandRefcountStmt exGen [] exStr (.inc exValue 3) exFollowing).getD
    (exFollowing, Option.none, exGen, [])

/-- The result of a concrete DecRef expansion (Str layout). -/
def c10Expansion : Stmt × Option (Symbol × ProcLayout) × RefcountProcGenerator × IdentIds :=
  (expandRefcountStmt exGen [] exStr (.decRef exValue) exFollowing).getD
    (exFollowing, Option.none, exGen, [])

/-- The scenario request sequence of the spec: (Str, Inc), (Str, Dec),
(Str, Inc). -/
def scenarioReqs : List (Layout × RefcountOp) :=
  [(.builtin .str, .inc), (.builtin .str, .dec), (.builtin .str, .inc)]

/-- The generator and ident state after running the scenario requests. -/
def scenarioStep : RefcountProcGenerator × IdentIds :=
  (processRequests exGen [] scenarioReqs).getD (exGen, [])

/-- The result of draining the registry after the scenario requests. -/
def scenarioDrained : List Proc × RefcountProcGenerator :=
  (generateRefcountProcs scenarioStep.1).getD ([], scenarioStep.1)

/-! Helper lemmas about the registry operations. -/

/-- The registry predicate used by `get_proc_symbol`'s lookup. -/
def entryMatches (layout : Layout) (op : RefcountOp)
    (e : Layout × RefcountOp × Symbol) : Bool :=
  decide (e.1 = layout ∧ e.2.1 = op)

theorem getProcSymbol_hit (g : RefcountProcGenerator) (identIds : IdentIds)
    (layout : Layout) (op : RefcountOp) (e : Layout × RefcountOp × Symbol)
    (h : g.procsToGenerate.find? (entryMatches layout op) = some e) :
    getProcSymbol g identIds layout op = some (true, e.2.2, g, identIds) := by
  unfold getProcSymbol
  rw [show (fun e => decide (e.1 = layout ∧ e.2.1 = op)) = entryMatches layout op
    from rfl, h]

theorem getProcSymbol_miss (g : RefcountProcGenerator) (identIds : IdentIds)
    (layout : Layout) (op : RefcountOp) (nm : String)
    (hn : g.procsToGenerate.find? (entryMatches layout op) = Option.none)
    (hd : layoutDebugName layout = some nm) :
    getProcSymbol g identIds layout op =
      some (false, Symbol.mk g.home identIds.length,
        { g with procsToGenerate := g.procsToGenerate ++
            [(layout, op, Symbol.mk g.home identIds.length)] },
        identIds ++ ["#rc" ++ op.debugName ++ "_" ++ nm ++ "_" ++
          toString g.procsToGenerate.length]) := by
  unfold getProcSymbol
  rw [show (fun e => decide (e.1 = layout ∧ e.2.1 = op)) = entryMatches layout op
    from rfl, hn, hd]
  rfl

theorem getProcSymbol_state (g : RefcountProcGenerator) (identIds : IdentIds)
    (layout : Layout) (op : RefcountOp) (b : Bool) (s : Symbol)
    (g' : RefcountProcGenerator) (identIds' : IdentIds)
    (h : getProcSymbol g identIds layout op = some (b, s, g', identIds')) :
    g'.home = g.home ∧ g'.nextSymbolId = g.nextSymbolId ∧
    g'.ptrSize = g.ptrSize ∧ g'.layoutIsize = g.layoutIsize ∧
    (g'.procsToGenerate = g.procsToGenerate ∨
      g'.procsToGenerate = g.procsToGenerate ++ [(layout, op, s)]) := by
  unfold getProcSymbol at h
  rcases hf : g.procsToGenerate.find?
      (fun e => decide (e.1 = layout ∧ e.2.1 = op)) with _ | e
  · rw [hf] at h
    rcases hd : layoutDebugName layout with _ | nm
    · rw [hd] at h; exact absurd h (by simp)
    · rw [hd] at h
      simp only [createSymbol, Option.some.injEq, Prod.mk.injEq] at h
      obtain ⟨hb, hs, hg, hi⟩ := h
      subst hg
      simp [hs]
  · rw [hf] at h
    simp only [Option.some.injEq, Prod.mk.injEq] at h
    obtain ⟨hb, hs, hg, hi⟩ := h
    subst hg
    simp

theorem genModifyStr_snd (g : RefcountProcGenerator) (op : RefcountOp) (s : Symbol) :
    (genModifyStr g op s).2 = { g with nextSymbolId := g.nextSymbolId + 8 } := by
  cases op <;> rfl

theorem genModifyStr_name (g : RefcountProcGenerator) (op : RefcountOp) (s : Symbol) :
    (genModifyStr g op s).1.name = s := by
  cases op <;> rfl

theorem genProcsLoop_cons_non_str (g : RefcountProcGenerator) (l : Layout)
    (op : RefcountOp) (s : Symbol) (rest : List (Layout × RefcountOp × Symbol))
    (hne : l ≠ .builtin .str) :
    genProcsLoop g ((l, op, s) :: rest) = Option.none := by
  cases l with
  | builtin b =>
    cases b with
    | str => exact absurd rfl hne
    | int w => rfl
    | float w => rfl
    | bool => rfl
    | decimal => rfl
    | list e => rfl
    | set e => rfl
    | dict k v => rfl
  | struct f => rfl
  | union t => rfl
  | lambdaSet c => rfl
  | recursivePointer => rfl

theorem genProcsLoop_names :
    ∀ (entries : List (Layout × RefcountOp × Symbol)) (g : RefcountProcGenerator)
      (procs : List Proc) (g' : RefcountProcGenerator),
      genProcsLoop g entries = some (procs, g') →
      procs.map Proc.name = entries.map (fun e => e.2.2) ∧
      procs.length = entries.length ∧
      g'.procsToGenerate = g.procsToGenerate := by
  intro entries
  induction entries with
  | nil =>
    intro g procs g' h
    simp only [genProcsLoop, Option.some.injEq, Prod.mk.injEq] at h
    obtain ⟨h1, h2⟩ := h
    subst h1; subst h2
    simp
  | cons head rest ih =>
    intro g procs g' h
    obtain ⟨l₀, op₀, s₀⟩ := head
    by_cases hstr : l₀ = Layout.builtin .str
    · subst hstr
      simp only [genProcsLoop] at h
      rcases hrec : genProcsLoop (genModifyStr g op₀ s₀).2 rest with _ | pg
      · rw [hrec] at h; exact absurd h (by simp)
      · obtain ⟨procs₁, g₂⟩ := pg
        rw [hrec] at h
        simp only [Option.some.injEq, Prod.mk.injEq] at h
        obtain ⟨rfl, rfl⟩ := h
        obtain ⟨ih1, ih2, ih3⟩ := ih (genModifyStr g op₀ s₀).2 procs₁ g₂ hrec
        refine ⟨?_, ?_, ?_⟩
        · simp [ih1, genModifyStr_name]
        · simp [ih2]
        · rw [ih3, genModifyStr_snd]
    · rw [genProcsLoop_cons_non_str g l₀ op₀ s₀ rest hstr] at h
      exact absurd h (by simp)

theorem genProcsLoop_bad_entry (l : Layout) (op : RefcountOp) (s : Symbol)
    (hne : l ≠ .builtin .str) :
    ∀ (entries : List (Layout × RefcountOp × Symbol)) (g : RefcountProcGenerator),
      (l, op, s) ∈ entries → genProcsLoop g entries = Option.none := by
  intro entries
  induction entries with
  | nil => intro g h; exact absurd h (List.not_mem_nil _)
  | cons head rest ih =>
    intro g h
    obtain ⟨l₀, op₀, s₀⟩ := head
    by_cases hstr : l₀ = Layout.builtin .str
    · subst hstr
      rcases List.mem_cons.mp h with heq | hmem
      · cases heq; exact absurd rfl hne
      · simp only [genProcsLoop]
        rw [ih (genModifyStr g op₀ s₀).2 hmem]
    · exact genProcsLoop_cons_non_str g l₀ op₀ s₀ rest hstr

theorem expand_inc_eq (g : RefcountProcGenerator) (identIds : IdentIds)
    (layout : Layout) (structSym : Symbol) (amount : Nat) (following : Stmt)
    (b : Bool) (s : Symbol) (g₁ : RefcountProcGenerator) (identIds₁ : IdentIds)
    (hg : getProcSymbol g identIds layout .inc = some (b, s, g₁, identIds₁)) :
    expandRefcountStmt g identIds layout (.inc structSym amount) following =
      some (Stmt.letS (Symbol.mk g₁.home identIds₁.length)
          (Expr.literal (.int amount)) LAYOUT_UNIT
          (Stmt.letS (Symbol.mk g₁.home g₁.nextSymbolId)
            (Expr.call { callType := CallType.byName s LAYOUT_UNIT [layout, g₁.layoutIsize]
                         arguments := [structSym, Symbol.mk g₁.home identIds₁.length] })
            LAYOUT_UNIT following),
        (if b then Option.none
          else some (s, { arguments := [layout, g₁.layoutIsize], result := LAYOUT_UNIT })),
        { g₁ with nextSymbolId := g₁.nextSymbolId + 1 },
        identIds₁ ++ ["amount"]) := by
  simp only [expandRefcountStmt, hg, createSymbol, uniqueSymbol]

theorem expand_dec_eq (g : RefcountProcGenerator) (identIds : IdentIds)
    (layout : Layout) (structSym : Symbol) (following : Stmt)
    (b : Bool) (s : Symbol) (g₁ : RefcountProcGenerator) (identIds₁ : IdentIds)
    (hg : getProcSymbol g identIds layout .dec = some (b, s, g₁, identIds₁)) :
    expandRefcountStmt g identIds layout (.dec structSym) following =
      some (Stmt.letS (Symbol.mk g₁.home g₁.nextSymbolId)
          (Expr.call { callType := CallType.byName s LAYOUT_UNIT [layout]
                       arguments := [structSym] })
          LAYOUT_UNIT following,
        (if b then Option.none
          else some (s, { arguments := [layout, g₁.layoutIsize], result := LAYOUT_UNIT })),
        { g₁ with nextSymbolId := g₁.nextSymbolId + 1 },
        identIds₁) := by
  simp only [expandRefcountStmt, hg, uniqueSymbol]

theorem expand_decref_eq (g : RefcountProcGenerator) (identIds : IdentIds)
    (layout : Layout) (structSym : Symbol) (following : Stmt) :
    expandRefcountStmt g identIds layout (.decRef structSym) following =
      some (Stmt.letS (Symbol.mk g.home g.nextSymbolId)
          (Expr.call { callType := CallType.lowLevel .RefCountGetPtr
                       arguments := [structSym] })
          LAYOUT_PTR
          (Stmt.letS (Symbol.mk g.home (g.nextSymbolId + 1))
            (Expr.call { callType := CallType.lowLevel .RefCountDec
                         arguments := [Symbol.mk g.home g.nextSymbolId] })
            LAYOUT_UNIT following),
        Option.none,
        { g with nextSymbolId := g.nextSymbolId + 2 },
        identIds) := rfl

/-! The claims. -/

/-- Claim C3: expanding a DecrementWithoutRelease (`ModifyRc::DecRef`)
instruction, against any layout and any generator state, creates no registry
entry and returns no new-procedure info, and the produced statements inline
exactly two low-level operations at the call site: first a
`RefCountGetPtr` call locating the count pointer of the value, then a
`RefCountDec` call (the low-level decrement-without-release invocation,
which receives only that pointer and no alignment) on that pointer; the
following statements are spliced after.  The final generator differs from the
initial one only in the fresh-symbol counter, so the registry is untouched. -/
theorem claim3_decref_inlines_lowlevel (g : RefcountProcGenerator)
    (identIds : IdentIds) (layout : Layout) (structSym : Symbol)
    (following : Stmt) :
    expandRefcountStmt g identIds layout (.decRef structSym) following =
      some (Stmt.letS (Symbol.mk g.home g.nextSymbolId)
          (Expr.call { callType := CallType.lowLevel .RefCountGetPtr
                       arguments := [structSym] })
          LAYOUT_PTR
          (Stmt.letS (Symbol.mk g.home (g.nextSymbolId + 1))
            (Expr.call { callType := CallType.lowLevel .RefCountDec
                         arguments := [Symbol.mk g.home g.nextSymbolId] })
            LAYOUT_UNIT following),
        Option.none,
        { g with nextSymbolId := g.nextSymbolId + 2 },
        identIds) :=
  expand_decref_eq g identIds layout structSym following

/-- Claim C4 (code bug): the emitted Dec call does pass only the value
(arguments `[c4Value]`, call-site argument layouts `[Str]`), and the
generated Dec helper's parameter list contains only the value; but the
`(name, ProcLayout)` info returned on first registration of the Dec helper
carries TWO argument layouts, `[Str, isize]` — the source computes
`arg_layouts = [layout, self.layout_isize]` in the Dec branch and hands it to
the registered `ProcLayout`, contradicting the one-parameter helper it
actually generates and calls. -/
theorem claim4_dec_registration_info :
    genArgs c4Gen .dec (.builtin .str) = [(.builtin .str, Symbol.ARG_1)] ∧
    expandRefcountStmt c4Gen [] (.builtin .str) (.dec exValue) exFollowing =
      some (Stmt.letS (Symbol.mk 5 0)
          (Expr.call { callType := CallType.byName (Symbol.mk 5 0) LAYOUT_UNIT [.builtin .str]
                       arguments := [exValue] })
          LAYOUT_UNIT exFollowing,
        some (Symbol.mk 5 0,
          { arguments := [.builtin .str, .builtin (.int .i64)], result := LAYOUT_UNIT }),
        { home := 5, nextSymbolId := 1, ptrSize := 8
          layoutIsize := .builtin (.int .i64)
          procsToGenerate := [(.builtin .str, .dec, Symbol.mk 5 0)] },
        ["#rcDec_str_0"]) :=
  ⟨rfl, rfl⟩

/-- Claim C7: expanding `Increment(value, N)` produces a statement binding
the constant `N` immediately before the call to the Inc helper; the call
passes the value as first argument and the bound constant as second, its
result is bound to a dummy with the unit layout (discarded), and the original
following statements are spliced after the call. -/
theorem claim7_inc_amount_materialization (g : RefcountProcGenerator)
    (identIds : IdentIds) (layout : Layout) (structSym : Symbol) (amount : Nat)
    (following : Stmt) (stmt : Stmt) (info : Option (Symbol × ProcLayout))
    (g' : RefcountProcGenerator) (identIds' : IdentIds)
    (h : expandRefcountStmt g identIds layout (.inc structSym amount) following =
      some (stmt, info, g', identIds')) :
    ∃ amountSym callResultDummy procName,
      stmt = Stmt.letS amountSym (Expr.literal (.int amount)) LAYOUT_UNIT
        (Stmt.letS callResultDummy
          (Expr.call { callType := CallType.byName procName LAYOUT_UNIT
                        [layout, g.layoutIsize]
                       arguments := [structSym, amountSym] })
          LAYOUT_UNIT following) := by
  rcases hg : getProcSymbol g identIds layout .inc with _ | ⟨b, s, g₁, identIds₁⟩
  · rw [expandRefcountStmt, hg] at h
    exact absurd h (by simp)
  · rw [expand_inc_eq g identIds layout structSym amount following b s g₁
      identIds₁ hg] at h
    simp only [Option.some.injEq, Prod.mk.injEq] at h
    obtain ⟨hstmt, -, -, -⟩ := h
    obtain ⟨-, -, -, hiso, -⟩ :=
      getProcSymbol_state g identIds layout .inc b s g₁ identIds₁ hg
    exact ⟨Symbol.mk g₁.home identIds₁.length, Symbol.mk g₁.home g₁.nextSymbolId,
      s, by rw [← hstmt, hiso]⟩

/-- Claim C8: synthesizing helper procedures aborts hard (`todo!`, modelled
as `none`) as soon as the registry contains an entry for any layout other
than the string layout — the entry is never skipped and no procedure list is
produced at all. -/
theorem claim8_unimplemented_layout_fail_fast (g : RefcountProcGenerator)
    (l : Layout) (op : RefcountOp) (s : Symbol)
    (hmem : (l, op, s) ∈ g.procsToGenerate) (hne : l ≠ .builtin .str) :
    generateRefcountProcs g = Option.none := by
  simp only [generateRefcountProcs]
  exact genProcsLoop_bad_entry l op s hne g.procsToGenerate _ hmem

/-- Witness for C8 at a concrete input: a registry holding a `Bool` entry. -/
theorem claim8_witness :
    ((Layout.builtin .bool, RefcountOp.dec, Symbol.mk 7 0) ∈ c8Gen.procsToGenerate ∧
      Layout.builtin .bool ≠ Layout.builtin .str) ∧
    generateRefcountProcs c8Gen = Option.none :=
  ⟨⟨by simp [c8Gen], by decide⟩,
    claim8_unimplemented_layout_fail_fast c8Gen (.builtin .bool) .dec
      (Symbol.mk 7 0) (by simp [c8Gen]) (by decide)⟩

/-- Counterexample to claim C9 as stated: draining the registry a second time
is NOT treated as an invariant failure — after a first drain of a registry
holding one Str entry, a second `generate_refcount_procs` call silently
succeeds, returning an empty procedure list and leaving the registry empty
(no assertion fires; the panic-free result is `some`, not a failure). -/
theorem claim9_counterexample :
    generateRefcountProcs cexGen = some (cexDrained.1, cexDrained.2) ∧
    cexDrained.2.procsToGenerate = [] ∧
    generateRefcountProcs cexDrained.2 = some ([], cexDrained.2) :=
  ⟨rfl, rfl, rfl⟩

/-- Claim C9 as amended: after `generate_refcount_procs` returns, the
registry is empty; but a second drain within the same compilation unit is not
an assertion failure — it silently succeeds and returns an empty procedure
list, leaving the state unchanged. -/
theorem claim9_drain_once_amended (g : RefcountProcGenerator) (ps : List Proc)
    (g' : RefcountProcGenerator)
    (h : generateRefcountProcs g = some (ps, g')) :
    g'.procsToGenerate = [] ∧ generateRefcountProcs g' = some ([], g') := by
  have h' : genProcsLoop { g with procsToGenerate := [] } g.procsToGenerate =
      some (ps, g') := by
    simpa [generateRefcountProcs] using h
  obtain ⟨-, -, h3⟩ := genProcsLoop_names g.procsToGenerate _ ps g' h'
  have hempty : g'.procsToGenerate = [] := by simpa using h3
  have heta : ({ g' with procsToGenerate := [] } : RefcountProcGenerator) = g' := by
    cases g'
    simp_all
  refine ⟨hempty, ?_⟩
  simp only [generateRefcountProcs, hempty, heta]
  rfl

/-- Witness for the amended C9 at a concrete input. -/
theorem claim9_witness :
    generateRefcountProcs cexGen = some (cexDrained.1, cexDrained.2) ∧
    (cexDrained.2.procsToGenerate = [] ∧
      generateRefcountProcs cexDrained.2 = some ([], cexDrained.2)) :=
  ⟨rfl, claim9_drain_once_amended cexGen cexDrained.1 cexDrained.2 rfl⟩

/-- Claim C10: every successful `expand_refcount_stmt` call leaves the
already-registered entries untouched — the new registry is either exactly the
old one or the old one with a single entry appended (growth by 0 or 1, never
a modification or removal). -/
theorem claim10_registry_growth (g : RefcountProcGenerator)
    (identIds : IdentIds) (layout : Layout) (modify : ModifyRc)
    (following : Stmt) (stmt : Stmt) (info : Option (Symbol × ProcLayout))
    (g' : RefcountProcGenerator) (identIds' : IdentIds)
    (h : expandRefcountStmt g identIds layout modify following =
      some (stmt, info, g', identIds')) :
    g'.procsToGenerate = g.procsToGenerate ∨
    ∃ e, g'.procsToGenerate = g.procsToGenerate ++ [e] := by
  cases modify with
  | inc structSym amount =>
    rcases hg : getProcSymbol g identIds layout .inc with _ | ⟨b, s, g₁, identIds₁⟩
    · rw [expandRefcountStmt, hg] at h
      exact absurd h (by simp)
    · rw [expand_inc_eq g identIds layout structSym amount following b s g₁
        identIds₁ hg] at h
      simp only [Option.some.injEq, Prod.mk.injEq] at h
      obtain ⟨-, -, hg', -⟩ := h
      obtain ⟨-, -, -, -, hp⟩ :=
        getProcSymbol_state g identIds layout .inc b s g₁ identIds₁ hg
      rw [← hg']
      rcases hp with hp | hp
      · exact Or.inl hp
      · exact Or.inr ⟨(layout, .inc, s), hp⟩
  | dec structSym =>
    rcases hg : getProcSymbol g identIds layout .dec with _ | ⟨b, s, g₁, identIds₁⟩
    · rw [expandRefcountStmt, hg] at h
      exact absurd h (by simp)
    · rw [expand_dec_eq g identIds layout structSym following b s g₁
        identIds₁ hg] at h
      simp only [Option.some.injEq, Prod.mk.injEq] at h
      obtain ⟨-, -, hg', -⟩ := h
      obtain ⟨-, -, -, -, hp⟩ :=
        getProcSymbol_state g identIds layout .dec b s g₁ identIds₁ hg
      rw [← hg']
      rcases hp with hp | hp
      · exact Or.inl hp
      · exact Or.inr ⟨(layout, .dec, s), hp⟩
  | decRef structSym =>
    rw [expand_decref_eq g identIds layout structSym following] at h
    simp only [Option.some.injEq, Prod.mk.injEq] at h
    obtain ⟨-, -, hg', -⟩ := h
    rw [← hg']
    exact Or.inl rfl

/-- Witness for C7 at a concrete input: Increment by 3 against the Str
layout, from a fresh generator. -/
theorem claim7_witness :
    expandRefcountStmt exGen [] exStr (.inc exValue 3) exFollowing =
      some (c7Expansion.1, c7Expansion.2.1, c7Expansion.2.2.1, c7Expansion.2.2.2) ∧
    ∃ amountSym callResultDummy procName,
      c7Expansion.1 = Stmt.letS amountSym
        (Expr.literal (.int ((3 : Nat) : Int))) LAYOUT_UNIT
        (Stmt.letS callResultDummy
          (Expr.call { callType := CallType.byName procName LAYOUT_UNIT
                        [exStr, exGen.layoutIsize]
                       arguments := [exValue, amountSym] })
          LAYOUT_UNIT exFollowing) :=
  ⟨rfl, claim7_inc_amount_materialization exGen [] exStr exValue 3 exFollowing
    c7Expansion.1 c7Expansion.2.1 c7Expansion.2.2.1 c7Expansion.2.2.2 rfl⟩

/-- Witness for C10 at a concrete input: a DecRef expansion from a fresh
generator. -/
theorem claim10_witness :
    expandRefcountStmt exGen [] exStr (.decRef exValue) exFollowing =
      some (c10Expansion.1, c10Expansion.2.1, c10Expansion.2.2.1, c10Expansion.2.2.2) ∧
    (c10Expansion.2.2.1.procsToGenerate = exGen.procsToGenerate ∨
      ∃ e, c10Expansion.2.2.1.procsToGenerate = exGen.procsToGenerate ++ [e]) :=
  ⟨rfl, claim10_registry_growth exGen [] exStr (.decRef exValue) exFollowing
    c10Expansion.1 c10Expansion.2.1 c10Expansion.2.2.1 c10Expansion.2.2.2 rfl⟩

theorem getProcSymbol_panic (g : RefcountProcGenerator) (identIds : IdentIds)
    (layout : Layout) (op : RefcountOp)
    (hn : g.procsToGenerate.find? (entryMatches layout op) = Option.none)
    (hd : layoutDebugName layout = Option.none) :
    getProcSymbol g identIds layout op = Option.none := by
  unfold getProcSymbol
  rw [show (fun e => decide (e.1 = layout ∧ e.2.1 = op)) = entryMatches layout op
    from rfl, hn, hd]

theorem getProcSymbolN_stable (g : RefcountProcGenerator) (identIds : IdentIds)
    (layout : Layout) (op : RefcountOp) (e : Layout × RefcountOp × Symbol)
    (hfind : g.procsToGenerate.find? (entryMatches layout op) = some e) :
    ∀ n, getProcSymbolN g identIds layout op n =
      some (List.replicate n (true, e.2.2), g, identIds) := by
  intro n
  induction n with
  | zero => simp [getProcSymbolN]
  | succ n ih =>
    have h1 := getProcSymbol_hit g identIds layout op e hfind
    simp [getProcSymbolN, h1, ih, List.replicate_succ]

/-- Claim C1: starting from a registry with no entry for `(layout, op)` (and
a layout the debug-namer accepts), a sequence of `n + 1` requests against the
same `(layout, op)` pair adds exactly one entry to the registry — the final
registry is the initial one with a single appended entry, the first request
observes `already_existed = false`, every later request observes
`already_existed = true`, and all requests return the same procedure
symbol. -/
theorem claim1_idempotent_specialization (g : RefcountProcGenerator)
    (identIds : IdentIds) (layout : Layout) (op : RefcountOp) (n : Nat)
    (nm : String) (hname : layoutDebugName layout = some nm)
    (hfresh : ∀ e ∈ g.procsToGenerate, ¬(e.1 = layout ∧ e.2.1 = op)) :
    ∃ s identIds',
      getProcSymbolN g identIds layout op (n + 1) =
        some ((false, s) :: List.replicate n (true, s),
          { g with procsToGenerate := g.procsToGenerate ++ [(layout, op, s)] },
          identIds') := by
  have hfind : g.procsToGenerate.find? (entryMatches layout op) = Option.none :=
    List.find?_eq_none.mpr (fun e he => by simpa [entryMatches] using hfresh e he)
  have hmiss := getProcSymbol_miss g identIds layout op nm hfind hname
  refine ⟨Symbol.mk g.home identIds.length,
    identIds ++ ["#rc" ++ op.debugName ++ "_" ++ nm ++ "_" ++
      toString g.procsToGenerate.length], ?_⟩
  have hfind₁ : (g.procsToGenerate ++
      [(layout, op, Symbol.mk g.home identIds.length)]).find?
      (entryMatches layout op) =
      some (layout, op, Symbol.mk g.home identIds.length) := by
    rw [List.find?_append, hfind]
    simp [entryMatches]
  have hstable := getProcSymbolN_stable
    { g with procsToGenerate := g.procsToGenerate ++
        [(layout, op, Symbol.mk g.home identIds.length)] }
    (identIds ++ ["#rc" ++ op.debugName ++ "_" ++ nm ++ "_" ++
      toString g.procsToGenerate.length])
    layout op (layout, op, Symbol.mk g.home identIds.length) hfind₁ n
  simp only [getProcSymbolN, hmiss, hstable]

/-- Witness for C1 at a concrete input: three Inc requests for Str from a
fresh generator. -/
theorem claim1_witness :
    (layoutDebugName exStr = some "str" ∧
      ∀ e ∈ exGen.procsToGenerate, ¬(e.1 = exStr ∧ e.2.1 = RefcountOp.inc)) ∧
    ∃ s identIds',
      getProcSymbolN exGen [] exStr .inc (2 + 1) =
        some ((false, s) :: List.replicate 2 (true, s),
          { exGen with procsToGenerate := exGen.procsToGenerate ++
              [(exStr, .inc, s)] },
          identIds') :=
  ⟨⟨rfl, by simp [exGen, RefcountProcGenerator.new]⟩,
    claim1_idempotent_specialization exGen [] exStr .inc 2 "str" rfl
      (by simp [exGen, RefcountProcGenerator.new])⟩

theorem processRequests_pairs :
    ∀ (reqs : List (Layout × RefcountOp)) (g : RefcountProcGenerator)
      (identIds : IdentIds) (g' : RefcountProcGenerator) (identIds' : IdentIds),
      processRequests g identIds reqs = some (g', identIds') →
      g'.procsToGenerate.map (fun e => (e.1, e.2.1)) =
        reqs.foldl (fun acc r => if r ∈ acc then acc else acc ++ [r])
          (g.procsToGenerate.map (fun e => (e.1, e.2.1))) := by
  intro reqs
  induction reqs with
  | nil =>
    intro g identIds g' identIds' h
    simp only [processRequests, Option.some.injEq, Prod.mk.injEq] at h
    obtain ⟨rfl, rfl⟩ := h
    simp
  | cons r rest ih =>
    intro g identIds g' identIds' h
    obtain ⟨l, op⟩ := r
    simp only [processRequests] at h
    rcases hf : g.procsToGenerate.find? (entryMatches l op) with _ | e
    · rcases hd : layoutDebugName l with _ | nm
      · rw [getProcSymbol_panic g identIds l op hf hd] at h
        exact absurd h (by simp)
      · rw [getProcSymbol_miss g identIds l op nm hf hd] at h
        have hrec := ih _ _ g' identIds' h
        rw [hrec]
        simp only [List.foldl_cons]
        congr 1
        have hnotmem : (l, op) ∉
            g.procsToGenerate.map (fun e => (e.1, e.2.1)) := by
          intro hmem
          obtain ⟨e, he, hpe⟩ := List.mem_map.mp hmem
          simp only [Prod.mk.injEq] at hpe
          have := List.find?_eq_none.mp hf e he
          rw [entryMatches] at this
          simp only [decide_eq_true_eq] at this
          exact this ⟨hpe.1, hpe.2⟩
        rw [if_neg hnotmem]
        simp
    · rw [getProcSymbol_hit g identIds l op e hf] at h
      have hrec := ih _ _ g' identIds' h
      rw [hrec]
      simp only [List.foldl_cons]
      congr 1
      have hp := List.find?_some hf
      rw [entryMatches] at hp
      simp only [decide_eq_true_eq] at hp
      have hmem : (l, op) ∈ g.procsToGenerate.map (fun e => (e.1, e.2.1)) :=
        List.mem_map.mpr ⟨e, List.mem_of_find?_eq_some hf, by
          rw [hp.1, hp.2]⟩
      rw [if_pos hmem]

/-- Claim C2: starting from an empty registry, after any sequence of
requests the registry's `(layout, op)` pairs are exactly the distinct request
pairs in first-request order (re-requests change nothing); draining it then
yields exactly one procedure per registered entry, positionally — same
length, and the procedure names are the registered symbols in registry
order. -/
theorem claim2_order_preservation (g : RefcountProcGenerator)
    (identIds : IdentIds) (reqs : List (Layout × RefcountOp))
    (g' : RefcountProcGenerator) (identIds' : IdentIds) (procs : List Proc)
    (g'' : RefcountProcGenerator)
    (hempty : g.procsToGenerate = [])
    (hreq : processRequests g identIds reqs = some (g', identIds'))
    (hdrain : generateRefcountProcs g' = some (procs, g'')) :
    g'.procsToGenerate.map (fun e => (e.1, e.2.1)) = firstRequestOrder reqs ∧
    procs.length = g'.procsToGenerate.length ∧
    procs.map Proc.name = g'.procsToGenerate.map (fun e => e.2.2) := by
  have h1 := processRequests_pairs reqs g identIds g' identIds' hreq
  rw [hempty] at h1
  have h2 : genProcsLoop { g' with procsToGenerate := [] } g'.procsToGenerate =
      some (procs, g'') := by
    simpa [generateRefcountProcs] using hdrain
  obtain ⟨n1, n2, -⟩ := genProcsLoop_names g'.procsToGenerate _ procs g'' h2
  exact ⟨by simpa [firstRequestOrder] using h1, n2, n1⟩

/-- Witness for C2: the spec's scenario — request (Str, Inc), (Str, Dec),
(Str, Inc) from a fresh generator, then drain.  The registry ends with
exactly the two pairs in first-request order and the drained procedures
carry their symbols in that order. -/
theorem claim2_witness :
    (exGen.procsToGenerate = [] ∧
      processRequests exGen [] scenarioReqs = some (scenarioStep.1, scenarioStep.2) ∧
      generateRefcountProcs scenarioStep.1 =
        some (scenarioDrained.1, scenarioDrained.2)) ∧
    (scenarioStep.1.procsToGenerate.map (fun e => (e.1, e.2.1)) =
        firstRequestOrder scenarioReqs ∧
      scenarioDrained.1.length = scenarioStep.1.procsToGenerate.length ∧
      scenarioDrained.1.map Proc.name =
        scenarioStep.1.procsToGenerate.map (fun e => e.2.2)) :=
  ⟨⟨rfl, rfl, rfl⟩,
    claim2_order_preservation exGen [] scenarioReqs scenarioStep.1
      scenarioStep.2 scenarioDrained.1 scenarioDrained.2 rfl rfl rfl⟩

/-- Claim C5: in the generated Str helper, for a string value whose length
field (second word, signed) is non-negative: the Inc helper's execution
first compares the length, then locates the count pointer of the whole
structure, then invokes the low-level increment primitive exactly once,
passing the count pointer and the amount parameter; the Dec helper likewise
invokes the low-level decrement primitive exactly once, passing the count
pointer and the word-size alignment constant (`ptr_size`); filtering each
trace to count-adjustment primitives leaves exactly that one call, so no
other count-adjustment primitive is invoked; both return unit. -/
theorem claim5_big_str_path (g : RefcountProcGenerator) (sym : Symbol)
    (p : Value) (len amt : Int) (h : 0 ≤ len) :
    (evalStmt [(Symbol.ARG_1, Value.struct [p, .int len]), (Symbol.ARG_2, .int amt)]
        (genModifyStr g .inc sym).1.body =
      some (.struct [],
        [(.NumGte, [.int len, .int 0]),
          (.RefCountGetPtr, [.struct [p, .int len]]),
          (.RefCountInc, [.countPtr (.struct [p, .int len]), .int amt])]) ∧
      ([((LowLevel.NumGte : LowLevel), [Value.int len, Value.int 0]),
          (.RefCountGetPtr, [Value.struct [p, .int len]]),
          (.RefCountInc, [.countPtr (.struct [p, .int len]), .int amt])].filter
          (fun c => isCountAdjust c.1)) =
        [(.RefCountInc, [.countPtr (.struct [p, .int len]), .int amt])]) ∧
    (evalStmt [(Symbol.ARG_1, Value.struct [p, .int len]), (Symbol.ARG_2, .int amt)]
        (genModifyStr g .dec sym).1.body =
      some (.struct [],
        [(.NumGte, [.int len, .int 0]),
          (.RefCountGetPtr, [.struct [p, .int len]]),
          (.RefCountDec, [.countPtr (.struct [p, .int len]), .int (g.ptrSize : Int)])]) ∧
      ([((LowLevel.NumGte : LowLevel), [Value.int len, Value.int 0]),
          (.RefCountGetPtr, [Value.struct [p, .int len]]),
          (.RefCountDec, [.countPtr (.struct [p, .int len]), .int (g.ptrSize : Int)])].filter
          (fun c => isCountAdjust c.1)) =
        [(.RefCountDec, [.countPtr (.struct [p, .int len]), .int (g.ptrSize : Int)])]) := by
  refine ⟨⟨?_, rfl⟩, ⟨?_, rfl⟩⟩ <;>
    simp [genModifyStr, uniqueSymbol, returnUnit, evalStmt, evalExpr,
      evalLowLevel, lookupEnv, valueTag, evalBranches, Symbol.ARG_1,
      Symbol.ARG_2, h, List.mapM.loop, add_right_inj, self_eq_add_right,
      add_right_eq_self]

/-- Witness for C5 at a concrete input: length 5, amount 3. -/
theorem claim5_witness :
    ((0 : Int) ≤ 5) ∧
    ((evalStmt [(Symbol.ARG_1, Value.struct [.int 77, .int 5]),
          (Symbol.ARG_2, .int 3)]
        (genModifyStr exGen .inc (Symbol.mk 7 9)).1.body =
      some (.struct [],
        [(.NumGte, [.int 5, .int 0]),
          (.RefCountGetPtr, [.struct [.int 77, .int 5]]),
          (.RefCountInc, [.countPtr (.struct [.int 77, .int 5]), .int 3])]) ∧
      ([((LowLevel.NumGte : LowLevel), [Value.int 5, Value.int 0]),
          (.RefCountGetPtr, [Value.struct [.int 77, .int 5]]),
          (.RefCountInc, [.countPtr (.struct [.int 77, .int 5]), .int 3])].filter
          (fun c => isCountAdjust c.1)) =
        [(.RefCountInc, [.countPtr (.struct [.int 77, .int 5]), .int 3])]) ∧
    (evalStmt [(Symbol.ARG_1, Value.struct [.int 77, .int 5]),
          (Symbol.ARG_2, .int 3)]
        (genModifyStr exGen .dec (Symbol.mk 7 9)).1.body =
      some (.struct [],
        [(.NumGte, [.int 5, .int 0]),
          (.RefCountGetPtr, [.struct [.int 77, .int 5]]),
          (.RefCountDec, [.countPtr (.struct [.int 77, .int 5]),
            .int (exGen.ptrSize : Int)])]) ∧
      ([((LowLevel.NumGte : LowLevel), [Value.int 5, Value.int 0]),
          (.RefCountGetPtr, [Value.struct [.int 77, .int 5]]),
          (.RefCountDec, [.countPtr (.struct [.int 77, .int 5]),
            .int (exGen.ptrSize : Int)])].filter
          (fun c => isCountAdjust c.1)) =
        [(.RefCountDec, [.countPtr (.struct [.int 77, .int 5]),
          .int (exGen.ptrSize : Int)])])) :=
  ⟨by decide,
    claim5_big_str_path exGen (Symbol.mk 7 9) (.int 77) 5 3 (by decide)⟩

/-- Claim C6: in the generated Str helper, for either refcount op, a string
value whose length field is negative takes the default (small-string)
branch: the only low-level call in the trace is the length comparison —
zero count-adjustment calls — and the helper returns the unit value
(the empty struct built by `return_unit`). -/
theorem claim6_small_str_short_circuit (g : RefcountProcGenerator)
    (op : RefcountOp) (sym : Symbol) (p : Value) (len amt : Int)
    (h : len < 0) :
    evalStmt [(Symbol.ARG_1, Value.struct [p, .int len]), (Symbol.ARG_2, .int amt)]
        (genModifyStr g op sym).1.body =
      some (.struct [], [(.NumGte, [.int len, .int 0])]) ∧
    ([((LowLevel.NumGte : LowLevel), [Value.int len, Value.int 0])].filter
        (fun c => isCountAdjust c.1)) = [] := by
  have h' : ¬(0 ≤ len) := not_le.mpr h
  refine ⟨?_, rfl⟩
  simp [genModifyStr, uniqueSymbol, returnUnit, evalStmt, evalExpr,
    evalLowLevel, lookupEnv, valueTag, evalBranches, Symbol.ARG_1,
    Symbol.ARG_2, h', List.mapM.loop, add_right_inj, self_eq_add_right,
    add_right_eq_self]

/-- Witness for C6 at a concrete input: length -5, Dec helper. -/
theorem claim6_witness :
    ((-5 : Int) < 0) ∧
    (evalStmt [(Symbol.ARG_1, Value.struct [.int 77, .int (-5)]),
          (Symbol.ARG_2, .int 3)]
        (genModifyStr exGen .dec (Symbol.mk 7 9)).1.body =
      some (.struct [], [(.NumGte, [.int (-5), .int 0])]) ∧
    ([((LowLevel.NumGte : LowLevel), [Value.int (-5), Value.int 0])].filter
        (fun c => isCountAdjust c.1)) = []) :=
  ⟨by decide,
    claim6_small_str_short_circuit exGen .dec (Symbol.mk 7 9) (.int 77)
      (-5) 3 (by decide)⟩

end GenRefcount
